import Mathlib

/-!
Verification of the request-interception router, response resolver and
dependent load sequencer exercised by
`frontend/src/scenes/session-recordings/player/inspector/PlayerInspector.stories.tsx`.

The mock handlers registered through `mswDecorator` are embedded as pure
functions over a JavaScript-value type; the story component `BasicTemplate`
(its render body and its `useEffect` keyed on `sessionPlayerMetaData`) is
embedded as a small trace semantics following React's effect rules.
-/

namespace PlayerInspectorStories

/-- JavaScript runtime values as far as the handlers inspect them.  `undef`
is the JavaScript `undefined` produced by a missing property access; parsed
JSON request bodies never contain it directly. -/
inductive JsVal where
  | undef
  | null
  | boolV (b : Bool)
  | num (n : Int)
  | str (s : String)
  | arr (xs : List JsVal)
  | obj (fields : List (String × JsVal))

/-- JavaScript property access `v.name`.  Reading a property of `undefined`
or `null` throws a TypeError (modelled as `Except.error ()`); reading a
missing property of an object yields `undefined`; `.length` of an array is
its element count and `.length` of a string its character count; any other
property of a primitive is `undefined`. -/
def JsVal.getMember : JsVal → String → Except Unit JsVal
  | JsVal.undef, _ => Except.error ()
  | JsVal.null, _ => Except.error ()
  | JsVal.obj fields, name => Except.ok ((List.lookup name fields).getD JsVal.undef)
  | JsVal.arr xs, "length" => Except.ok (JsVal.num (Int.ofNat xs.length))
  | JsVal.arr _, _ => Except.ok JsVal.undef
  | JsVal.str s, "length" => Except.ok (JsVal.num (Int.ofNat s.length))
  | JsVal.str _, _ => Except.ok JsVal.undef
  | JsVal.num _, _ => Except.ok JsVal.undef
  | JsVal.boolV _, _ => Except.ok JsVal.undef

/-- JavaScript strict equality `v === "lit"` against a string literal. -/
def JsVal.strictEqStr : JsVal → String → Bool
  | JsVal.str s, t => s == t
  | _, _ => false

/-- JavaScript strict equality `v === n` against a number literal. -/
def JsVal.strictEqNum : JsVal → Int → Bool
  | JsVal.num m, n => m == n
  | _, _ => false

/-- A resolved mock response: `jsonBody` for `res(ctx.json(...))` and for the
`[status, payload]` shorthand (content type `application/json`); `textBody`
for `res(ctx.text(...))` (content type `text/plain`).  `ctx.json`/`ctx.text`
leave the status at its default 200 unless overridden. -/
inductive MockResponse where
  | jsonBody (status : Nat) (payload : JsVal)
  | textBody (status : Nat) (body : String)

/-- Content type attached by msw's `ctx.json` / `ctx.text`. -/
def MockResponse.contentType : MockResponse → String
  | MockResponse.jsonBody _ _ => "application/json"
  | MockResponse.textBody _ _ => "text/plain"

/-- `URLSearchParams.get`: the value of the first query parameter with the
given name, or `null` (here `none`) when the parameter is absent. -/
def searchParamsGet (qp : List (String × String)) (name : String) : Option String :=
  Option.map Prod.snd (List.find? (fun p => p.1 == name) qp)

/-- The literal `{sources: [...]}` payload returned by the snapshots handler
when the `source` query parameter is not `"blob"`. -/
def sourcesPayload : JsVal :=
  JsVal.obj
    [("sources",
      JsVal.arr
        [JsVal.obj
          [("source", JsVal.str "blob"),
           ("start_timestamp", JsVal.str "2023-08-11T12:03:36.097000Z"),
           ("end_timestamp", JsVal.str "2023-08-11T12:04:52.268000Z"),
           ("blob_key", JsVal.str "1691755416097-1691755492268")]])]

/-- The handler registered for
`GET /api/environments/:team_id/session_recordings/:id/snapshots`:
if `req.url.searchParams.get('source') === 'blob'` it returns
`res(ctx.text(snapshotsAsJSONLines()))`, otherwise the literal
`[200, {sources: [...]}]` payload.  The line-delimited snapshot fixture
`snapshotsAsJSONLines()` lives in a `__mocks__` module outside this file and
is passed in as the `snapshotsText` argument; the handler returns it
verbatim. -/
def snapshotsHandler (snapshotsText : String) (qp : List (String × String)) : MockResponse :=
  if (match searchParamsGet qp "source" with
      | some s => s == "blob"
      | none => false) then
    MockResponse.textBody 200 snapshotsText
  else
    MockResponse.jsonBody 200 sourcesPayload

/-- The `{results: []}` default payload of the query handler. -/
def emptyResultsPayload : JsVal :=
  JsVal.obj [("results", JsVal.arr [])]

/-- The handler registered for `POST /api/environments/:team_id/query`:
it evaluates `body.query.kind === 'EventsQuery' && body.query.properties.length === 1`
(with JavaScript member-access and short-circuit semantics, so a body whose
`query` field is missing or `null` throws a TypeError) and returns
`res(ctx.json(recordingEventsJson))` on a match and
`res(ctx.json({results: []}))` otherwise.  The canned fixture
`recordingEventsJson` lives in a `__mocks__` module outside this file and is
passed in as the `eventsFixture` argument. -/
def queryHandler (eventsFixture : JsVal) (body : JsVal) : Except Unit MockResponse :=
  match JsVal.getMember body "query" with
  | Except.error e => Except.error e
  | Except.ok q =>
    match JsVal.getMember q "kind" with
    | Except.error e => Except.error e
    | Except.ok kind =>
      if JsVal.strictEqStr kind "EventsQuery" then
        match JsVal.getMember q "properties" with
        | Except.error e => Except.error e
        | Except.ok props =>
          match JsVal.getMember props "length" with
          | Except.error e => Except.error e
          | Except.ok len =>
            if JsVal.strictEqNum len 1 then
              Except.ok (MockResponse.jsonBody 200 eventsFixture)
            else
              Except.ok (MockResponse.jsonBody 200 emptyResultsPayload)
      else
        Except.ok (MockResponse.jsonBody 200 emptyResultsPayload)

/-- A request body of the shape `{query: {kind: "EventsQuery", properties: ps}}`. -/
def eventsQueryBody (ps : List JsVal) : JsVal :=
  JsVal.obj
    [("query",
      JsVal.obj
        [("kind", JsVal.str "EventsQuery"),
         ("properties", JsVal.arr ps)])]

end PlayerInspectorStories

namespace PlayerInspectorStories

/-- C5: a POST body `{query: {kind: "EventsQuery", properties: [item]}}` with
exactly one property item makes the query handler return the canned
events-query fixture as JSON with status 200, whatever the fixture and the
item are. -/
theorem query_handler_one_property_returns_events_fixture
    (eventsFixture item : JsVal) :
    queryHandler eventsFixture (eventsQueryBody [item]) =
      Except.ok (MockResponse.jsonBody 200 eventsFixture) := rfl

/-- C6: a POST body `{query: {kind: "EventsQuery", properties: []}}` with zero
property items makes the query handler return the `{results: []}` default
payload as JSON with status 200. -/
theorem query_handler_zero_properties_returns_empty_results
    (eventsFixture : JsVal) :
    queryHandler eventsFixture (eventsQueryBody []) =
      Except.ok (MockResponse.jsonBody 200 emptyResultsPayload) := rfl

/-- C7: when the `source` query parameter is absent, the snapshots handler
returns exactly the `{sources: [...]}` payload with status 200. -/
theorem snapshots_handler_no_source_returns_sources
    (snapshotsText : String) (qp : List (String × String))
    (h : searchParamsGet qp "source" = none) :
    snapshotsHandler snapshotsText qp = MockResponse.jsonBody 200 sourcesPayload := by
  unfold snapshotsHandler
  rw [h]
  rfl

/-- Witness for C7 at the concrete empty query-parameter list. -/
theorem snapshots_handler_no_source_returns_sources_witness :
    searchParamsGet [] "source" = none ∧
      snapshotsHandler "line1\nline2" [] = MockResponse.jsonBody 200 sourcesPayload :=
  ⟨rfl, snapshots_handler_no_source_returns_sources "line1\nline2" [] rfl⟩

/-- C8: when the `source` query parameter equals `"blob"`, the snapshots
handler returns the line-delimited snapshot fixture verbatim as the response
body, with status 200 and content type `text/plain`. -/
theorem snapshots_handler_blob_returns_raw_text
    (snapshotsText : String) (qp : List (String × String))
    (h : searchParamsGet qp "source" = some "blob") :
    snapshotsHandler snapshotsText qp = MockResponse.textBody 200 snapshotsText ∧
      MockResponse.contentType (snapshotsHandler snapshotsText qp) = "text/plain" := by
  unfold snapshotsHandler
  rw [h]
  exact ⟨rfl, rfl⟩

/-- Witness for C8 at the concrete query `?source=blob`. -/
theorem snapshots_handler_blob_returns_raw_text_witness :
    searchParamsGet [("source", "blob")] "source" = some "blob" ∧
      (snapshotsHandler "line1\nline2" [("source", "blob")] =
          MockResponse.textBody 200 "line1\nline2" ∧
        MockResponse.contentType (snapshotsHandler "line1\nline2" [("source", "blob")]) =
          "text/plain") :=
  ⟨rfl, snapshots_handler_blob_returns_raw_text "line1\nline2" [("source", "blob")] rfl⟩

/-- C10: when the `source` query parameter is present with any value other
than exactly `"blob"`, the snapshots handler returns the same
`{sources: [...]}` payload as when `source` is absent: the blob branch is
guarded by strict string equality with `"blob"`. -/
theorem snapshots_handler_other_source_returns_sources
    (snapshotsText v : String) (qp : List (String × String))
    (hv : searchParamsGet qp "source" = some v) (hne : v ≠ "blob") :
    snapshotsHandler snapshotsText qp = MockResponse.jsonBody 200 sourcesPayload := by
  unfold snapshotsHandler
  rw [hv]
  simp [hne]

/-- Witness for C10 at the concrete query `?source=realtime`. -/
theorem snapshots_handler_other_source_returns_sources_witness :
    searchParamsGet [("source", "realtime")] "source" = some "realtime" ∧
      "realtime" ≠ "blob" ∧
      snapshotsHandler "line1\nline2" [("source", "realtime")] =
        MockResponse.jsonBody 200 sourcesPayload :=
  ⟨rfl, by decide,
    snapshots_handler_other_source_returns_sources "line1\nline2" "realtime"
      [("source", "realtime")] rfl (by decide)⟩

/-- C4 counterexample: the empty object body `{}` matches the query route but
makes the handler throw a TypeError (reading `kind` of `undefined`), so the
documented default payload is not returned and an exception is raised,
contrary to the claim that no matched request ever raises. -/
theorem query_handler_empty_body_throws :
    queryHandler JsVal.null (JsVal.obj []) = Except.error () ∧
      queryHandler JsVal.null (JsVal.obj []) ≠
        Except.ok (MockResponse.jsonBody 200 emptyResultsPayload) :=
  ⟨rfl, fun hc => Except.noConfusion (Eq.trans (Eq.symm rfl) hc)⟩

/-- C4 (amended): on every body for which evaluating the branch predicate does
not throw, the query handler returns exactly one of the two registered
payloads — the events fixture or the `{results: []}` default — and it never
returns a route-level no-match; bodies whose `query` field is missing or
`null` (or whose `properties` is missing or `null` under an `EventsQuery`
kind) throw a TypeError instead of returning the default. -/
theorem query_handler_total_or_throws (eventsFixture body : JsVal) :
    queryHandler eventsFixture body = Except.error () ∨
      queryHandler eventsFixture body =
        Except.ok (MockResponse.jsonBody 200 eventsFixture) ∨
      queryHandler eventsFixture body =
        Except.ok (MockResponse.jsonBody 200 emptyResultsPayload) := by
  unfold queryHandler
  repeat' split
  all_goals first
  | exact Or.inl rfl
  | exact Or.inr (Or.inl rfl)
  | exact Or.inr (Or.inr rfl)

end PlayerInspectorStories

namespace PlayerInspectorStories

/-- The three load operations the story issues against the mocked backend. -/
inductive LoadKind where
  | sessionMetadata
  | snapshots
  | events
deriving DecidableEq

/-- Lifecycle of the session-metadata LoadState, per the state machine
`unloaded -> loading -> loaded | failed`.  The loaded payload is abstracted
to a numeric tag standing for the metadata record produced by the mock. -/
inductive MetaState where
  | unloaded
  | loading
  | loaded (v : Nat)
  | failed
deriving DecidableEq

/-- Modelled from the spec: `sessionPlayerMetaData`, the reactive value read
from `sessionRecordingDataLogic` (that logic is not under src/).  It is the
resolved metadata record once the metadata load reaches `loaded`, and `null`
(here `none`) while the LoadState is `unloaded`, `loading` or `failed`. -/
def metaValue : MetaState → Option Nat
  | MetaState.loaded v => some v
  | _ => none

/-- Observable events of a harness execution trace. -/
inductive Ev where
  | issued (k : LoadKind)
  | metaLoaded
  | metaFailed
deriving DecidableEq

/-- External happenings the schedule can contain after mount: the pending
metadata request resolving (successfully or with an error status), or an
unrelated re-render / state tick of the component. -/
inductive Step where
  | metaResolve (ok : Bool)
  | rerender

/-- Harness state between schedule steps: the metadata LoadState and the
`sessionPlayerMetaData` value observed the last time the `useEffect` ran
(React compares the dependency array against this to decide whether the
effect fires again). -/
structure HState where
  meta : MetaState
  prevDep : Option Nat
deriving DecidableEq

/-- One render of `BasicTemplate` as React processes it after a state change:
the `useEffect` keyed on `[sessionPlayerMetaData]` fires iff the dependency
changed since the effect last ran, and its body calls `loadEvents()`. -/
def effectOnRender (s : HState) : HState × List Ev :=
  let dep := metaValue s.meta
  if dep = s.prevDep then (s, [])
  else ({ s with prevDep := dep }, [Ev.issued LoadKind.events])

/-- One schedule step.  A resolution of the pending metadata request moves the
LoadState to `loaded`/`failed` (Modelled from the spec: the resolved response
flows back into `sessionRecordingDataLogic`'s state, which is not under src/)
and, since that state feeds `useValues`, triggers a re-render processed by
`effectOnRender`; an unrelated re-render only runs `effectOnRender`. -/
def hstep (s : HState) : Step → HState × List Ev
  | Step.metaResolve ok =>
    match s.meta with
    | MetaState.loading =>
      if ok then
        let p := effectOnRender { meta := MetaState.loaded 1, prevDep := s.prevDep }
        (p.1, Ev.metaLoaded :: p.2)
      else
        let p := effectOnRender { meta := MetaState.failed, prevDep := s.prevDep }
        (p.1, Ev.metaFailed :: p.2)
    | _ => (s, [])
  | Step.rerender => effectOnRender s

/-- Harness state right after `BasicTemplate` mounts: the metadata load is in
flight and the mount-time effect has recorded `sessionPlayerMetaData = null`
as its last-seen dependency. -/
def mountState : HState :=
  { meta := MetaState.loading, prevDep := none }

/-- Events produced by mounting `BasicTemplate`: the render body calls
`loadSnapshots()`; the metadata load is started (Modelled from the spec: the
Load Sequencer issues operation A, fetch metadata, when the harness starts —
`sessionRecordingDataLogic` is not under src/); and React then runs the
`useEffect` keyed on `[sessionPlayerMetaData]` once after the first render
unconditionally, so `loadEvents()` is called with the metadata still
loading. -/
def mountTrace : List Ev :=
  [Ev.issued LoadKind.snapshots, Ev.issued LoadKind.sessionMetadata, Ev.issued LoadKind.events]

/-- Run a schedule from a harness state, collecting the emitted events. -/
def runSteps : HState → List Step → List Ev
  | _, [] => []
  | s, st :: rest =>
    let p := hstep s st
    p.2 ++ runSteps p.1 rest

/-- The full event trace of a harness execution: mount followed by the given
schedule of resolutions and re-renders. -/
def harnessTrace (steps : List Step) : List Ev :=
  mountTrace ++ runSteps mountState steps

/-- C1 (falsifying evidence): in the trace of the schedule with no further
steps, `loadEvents` has already been issued at mount while the
session-metadata LoadState never reached `loaded` — the dependent load is
issued before its prerequisite is loaded, because React runs the `useEffect`
once after the first render regardless of its dependency array. -/
theorem mount_issues_events_before_metadata_loaded :
    Ev.issued LoadKind.events ∈ harnessTrace [] ∧ Ev.metaLoaded ∉ harnessTrace [] := by
  decide

/-- C2 (falsifying evidence): when the metadata load starts and later resolves
to `loaded`, `loadEvents` is issued twice — once at mount, before the
transition, and once more when `sessionPlayerMetaData` changes — not exactly
once at the first transition into `loaded`. -/
theorem events_issued_twice_on_successful_load :
    harnessTrace [Step.metaResolve true] =
      [Ev.issued LoadKind.snapshots, Ev.issued LoadKind.sessionMetadata,
        Ev.issued LoadKind.events, Ev.metaLoaded, Ev.issued LoadKind.events] ∧
      List.count (Ev.issued LoadKind.events) (harnessTrace [Step.metaResolve true]) = 2 := by
  decide

/-- C3 (falsifying evidence): in the execution where the metadata load
resolves to `failed`, the dependent events load was nevertheless issued (at
mount), although the prerequisite never reached `loaded`. -/
theorem events_issued_despite_metadata_failure :
    Ev.issued LoadKind.events ∈ harnessTrace [Step.metaResolve false] ∧
      Ev.metaFailed ∈ harnessTrace [Step.metaResolve false] ∧
      Ev.metaLoaded ∉ harnessTrace [Step.metaResolve false] := by
  decide

/-- Lifecycle tags of a generic LoadState as seen by the data-loading
facade. -/
inductive SimpleLoadState where
  | unloaded
  | loading
  | loadedDone
  | failedDone
deriving DecidableEq

/-- Modelled from the spec: the data-loading facade of
`sessionRecordingDataLogic` (not under src/), tracking each kind's LoadState
together with the number of simulated requests the interception layer has
recorded for it. -/
structure FacadeState where
  lstate : LoadKind → SimpleLoadState
  calls : LoadKind → Nat

/-- Modelled from the spec: `startLoad(kind)` moves an idle kind to `loading`
and issues one simulated request (recording one interception call); a second
start while the kind is already `loading` is a no-op and issues nothing. -/
def startLoad (s : FacadeState) (k : LoadKind) : FacadeState :=
  match s.lstate k with
  | SimpleLoadState.loading => s
  | _ =>
    { lstate := fun j => if j = k then SimpleLoadState.loading else s.lstate j,
      calls := fun j => if j = k then s.calls j + 1 else s.calls j }

/-- `startLoadN s k n` calls `startLoad` for kind `k` a total of `n` times. -/
def startLoadN (s : FacadeState) (k : LoadKind) : Nat → FacadeState
  | 0 => s
  | n + 1 => startLoad (startLoadN s k n) k

theorem startLoadN_from_unloaded (s : FacadeState) (k : LoadKind) (n : Nat)
    (h : s.lstate k = SimpleLoadState.unloaded) :
    (startLoadN s k (n + 1)).calls k = s.calls k + 1 ∧
      (startLoadN s k (n + 1)).lstate k = SimpleLoadState.loading := by
  induction n with
  | zero =>
    constructor
    · show (startLoad s k).calls k = s.calls k + 1
      unfold startLoad
      rw [h]
      simp
    · show (startLoad s k).lstate k = SimpleLoadState.loading
      unfold startLoad
      rw [h]
      simp
  | succ m ih =>
    obtain ⟨ihc, ihs⟩ := ih
    have hfix : startLoad (startLoadN s k (m + 1)) k = startLoadN s k (m + 1) := by
      unfold startLoad
      rw [ihs]
    constructor
    · show (startLoad (startLoadN s k (m + 1)) k).calls k = s.calls k + 1
      rw [hfix]
      exact ihc
    · show (startLoad (startLoadN s k (m + 1)) k).lstate k = SimpleLoadState.loading
      rw [hfix]
      exact ihs

/-- C9: `startLoad(kind)` while `kind` is already `loading` is a no-op (no
second simulated request is recorded), and from `unloaded` any number of
consecutive `startLoad` calls records exactly one interception call for the
whole lifecycle. -/
theorem start_load_idempotent_while_loading (s : FacadeState) (k : LoadKind) :
    (s.lstate k = SimpleLoadState.loading → startLoad s k = s) ∧
      (∀ n, s.lstate k = SimpleLoadState.unloaded →
        (startLoadN s k (n + 1)).calls k = s.calls k + 1) := by
  constructor
  · intro h
    unfold startLoad
    rw [h]
  · intro n h
    exact (startLoadN_from_unloaded s k n h).1

/-- A facade state in which every kind is currently `loading` with one call
recorded. -/
def loadingFacade : FacadeState :=
  { lstate := fun _ => SimpleLoadState.loading, calls := fun _ => 1 }

/-- A facade state in which every kind is idle with no calls recorded. -/
def idleFacade : FacadeState :=
  { lstate := fun _ => SimpleLoadState.unloaded, calls := fun _ => 0 }

/-- Witness for C9 at concrete facade states: a repeated start while
`loading` leaves the state untouched, and five consecutive starts from
`unloaded` record exactly one call. -/
theorem start_load_idempotent_while_loading_witness :
    startLoad loadingFacade LoadKind.snapshots = loadingFacade ∧
      (startLoadN idleFacade LoadKind.snapshots 5).calls LoadKind.snapshots =
        idleFacade.calls LoadKind.snapshots + 1 :=
  ⟨(start_load_idempotent_while_loading loadingFacade LoadKind.snapshots).1 rfl,
    (start_load_idempotent_while_loading idleFacade LoadKind.snapshots).2 4 rfl⟩

end PlayerInspectorStories
